import Mathlib

/-!
Shallow embedding of the mutual-exclusion self-test harness (`semtest.c`)
of the STM32F103 FreeRTOS firmware.

The embedded C entities:
* `sCheckVariables` / `sLastCheckVariables` : arrays of `semtstNUM_TASKS`
  16-bit counters, modelled as functions `Fin semtstNUM_TASKS → Nat`
  (the counters are only ever incremented by one, and the liveness check
  compares them for equality only, so the unbounded model is faithful up
  to the two's-complement wrap of `short`).
* `xAreSemaphoreTasksStillRunning` : the supervisor liveness poll; its
  `static` snapshot array is made an explicit argument and the updated
  snapshot an explicit result.
* `prvSemaphoreTest`'s loop body (one pass of the infinite `for( ;; )`)
  becomes `runCycle`.  The volatile reads of the shared cell and the
  results of `xSemaphoreTake` / `xSemaphoreGive` are the points where the
  environment (scheduler, the other task of the group) can interfere,
  so they are supplied by a `CycleEnv` oracle; an uninterfered cycle is
  one whose oracle reads back exactly what was written.
* the check-variable index allocator of `prvSemaphoreTest` (the
  `portENTER_CRITICAL` / `portEXIT_CRITICAL` protected read-and-increment
  of `sNextCheckVariable`), whose critical section makes each allocation
  one atomic step, so a run of allocations is their sequential
  composition.
* `vStartSemaphoreTasks` : the spawn entry point, with the outcomes of
  the `pvPortMalloc` / `vSemaphoreCreateBinary` calls per group supplied
  by an `AllocEnv` oracle.
-/

namespace SemTest

/-- `#define semtstBLOCKING_EXPECTED_VALUE ( ( unsigned long ) 0xfff )` -/
def semtstBLOCKING_EXPECTED_VALUE : Nat := 0xfff

/-- `#define semtstNON_BLOCKING_EXPECTED_VALUE ( ( unsigned long ) 0xff )` -/
def semtstNON_BLOCKING_EXPECTED_VALUE : Nat := 0xff

/-- `#define semtstNUM_TASKS ( 4 )` -/
def semtstNUM_TASKS : Nat := 4

/-- `#define semtstDELAY_FACTOR ( ( TickType_t ) 10 )` -/
def semtstDELAY_FACTOR : Nat := 10

/-- Modelled from the spec: `tskIDLE_PRIORITY` is the scheduler's lowest
("idle") priority; the FreeRTOS header defining it as 0 is not part of
this repository's sources. -/
def tskIDLE_PRIORITY : Nat := 0

/-- The `sCheckVariables` / `sLastCheckVariables` arrays:
`static volatile short sCheckVariables[ semtstNUM_TASKS ] = { 0 }`. -/
abbrev CheckVars := Fin semtstNUM_TASKS → Nat

/-- One iteration of the loop body of `xAreSemaphoreTasksStillRunning`
at index `xTask`: if the stored snapshot entry equals the live counter,
`xReturn` is set to `pdFALSE`; the snapshot entry is then overwritten
with the live value. -/
def checkBody (live : CheckVars) (acc : Bool × CheckVars) (xTask : Fin semtstNUM_TASKS) :
    Bool × CheckVars :=
  let xReturn := if acc.2 xTask == live xTask then false else acc.1
  (xReturn, Function.update acc.2 xTask (live xTask))

/-- `BaseType_t xAreSemaphoreTasksStillRunning( void )`.  The `static`
snapshot `sLastCheckVariables` is the first argument, the live
`sCheckVariables` the second; the result is the returned `BaseType_t`
(`true` = `pdTRUE`) together with the snapshot as left for the next call.
The C `for` loop over `xTask = 0 .. semtstNUM_TASKS-1` is a fold over
the indices in order. -/
def xAreSemaphoreTasksStillRunning (sLastCheckVariables sCheckVariables : CheckVars) :
    Bool × CheckVars :=
  (List.finRange semtstNUM_TASKS).foldl (checkBody sCheckVariables)
    (true, sLastCheckVariables)

/-- Accumulator of the mutate-and-reverify `for` loop of
`prvSemaphoreTest`: the task's local `sError` flag, the number of
messages queued to `vPrintDisplayMessage` so far in the cycle, the
current value of `*pulSharedVariable`, and the trace of values written
to it. -/
@[ext]
structure LoopAcc where
  sError : Bool
  emits : Nat
  cell : Nat
  writes : List Nat

/-- One iteration of
`for( ulCounter = 0; ulCounter <= ulExpectedValue; ulCounter++ )`:
write `ulCounter` to the shared cell, re-read it (the re-read value is
`rb ulCounter`, supplied by the interference oracle), and on a mismatch
print the error string — but only if `sError` is still `pdFALSE` — and
set `sError`. -/
def reverifyStep (rb : Nat → Nat) (a : LoopAcc) (ulCounter : Nat) : LoopAcc :=
  let a1 : LoopAcc := { a with cell := ulCounter, writes := a.writes ++ [ulCounter] }
  if rb ulCounter ≠ ulCounter then
    { a1 with sError := true, emits := if a.sError = false then a1.emits + 1 else a1.emits }
  else a1

/-- The whole counting loop: `ulCounter` runs over `0 .. ulExpectedValue`
inclusive. -/
def mutateAndReverify (rb : Nat → Nat) (ulExpectedValue : Nat) (a : LoopAcc) : LoopAcc :=
  (List.range (ulExpectedValue + 1)).foldl (reverifyStep rb) a

/-- The environment of one pass of the infinite loop of
`prvSemaphoreTest`: the result of `xSemaphoreTake`, the value the
volatile pre-condition read of `*pulSharedVariable` observes, the value
each re-read of the counting loop observes, and the result of
`xSemaphoreGive`. -/
structure CycleEnv where
  takeOk : Bool
  preVal : Nat
  readBack : Nat → Nat
  giveOk : Bool

/-- The state a task carries across passes of its loop: its `sError`
flag (declared once, before the loop — never reset per cycle), the
shared cell, and the `sCheckVariables` array. -/
structure TaskState where
  sError : Bool
  cell : Nat
  checks : CheckVars

/-- `if( sCheckVariableToUse < semtstNUM_TASKS ) { ( sCheckVariables[ sCheckVariableToUse ] )++; }`
— the guarded increment; an index outside the array leaves it untouched,
and the array is only ever indexed under the proof of the guard. -/
def bumpCheck (sCheckVariableToUse : Nat) (cv : CheckVars) : CheckVars :=
  if h : sCheckVariableToUse < semtstNUM_TASKS then
    Function.update cv ⟨sCheckVariableToUse, h⟩ (cv ⟨sCheckVariableToUse, h⟩ + 1)
  else cv

/-- One pass of the `for( ;; )` loop of `prvSemaphoreTest`, for the task
whose expected value is `ulExpectedValue` and whose allocated
check-variable index is `idx`.  Returns the new task state and the
number of messages sent to `vPrintDisplayMessage` during the pass.
On a failed take the polling branch merely yields (`taskYIELD`) and the
blocking branch falls through; neither changes any state. -/
def runCycle (ulExpectedValue idx : Nat) (env : CycleEnv) (s : TaskState) :
    TaskState × Nat :=
  if env.takeOk = true then
    let pre : Bool × Nat :=
      if env.preVal ≠ ulExpectedValue then (true, 1) else (s.sError, 0)
    let a := mutateAndReverify env.readBack ulExpectedValue
      { sError := pre.1, emits := pre.2, cell := s.cell, writes := [] }
    let post : Bool × Nat :=
      if env.giveOk = false then (true, a.emits + 1) else (a.sError, a.emits)
    let checks1 := if post.1 = false then bumpCheck idx s.checks else s.checks
    ({ sError := post.1, cell := a.cell, checks := checks1 }, post.2)
  else
    (s, 0)

/-- `ulExpectedValue` as chosen at the top of `prvSemaphoreTest` from the
task's block time: a positive block time selects the blocking constant,
a zero block time the non-blocking one. -/
def ulExpectedValueFor (xBlockTime : Nat) : Nat :=
  if 0 < xBlockTime then semtstBLOCKING_EXPECTED_VALUE
  else semtstNON_BLOCKING_EXPECTED_VALUE

/-- The `portENTER_CRITICAL()` … `portEXIT_CRITICAL()` block of
`prvSemaphoreTest`: read `sNextCheckVariable` into
`sCheckVariableToUse`, then increment it.  The critical section makes
the whole block one atomic step; it returns the allocated index and the
new allocator state. -/
def allocIndex (sNextCheckVariable : Nat) : Nat × Nat :=
  (sNextCheckVariable, sNextCheckVariable + 1)

/-- A run of `n` consecutive allocations starting from allocator state
`s`, listing the indices handed out in order.  Because each allocation
is atomic, any interleaving of the starting tasks performs exactly such
a run. -/
def allocIndices : Nat → Nat → List Nat
  | 0, _ => []
  | n + 1, s => (allocIndex s).1 :: allocIndices n (allocIndex s).2

/-- Outcomes of the allocation calls made by `vStartSemaphoreTasks`, one
flag per `pvPortMalloc` / `vSemaphoreCreateBinary` call (`true` =
non-NULL result). -/
structure AllocEnv where
  firstParamsOk : Bool
  firstSemOk : Bool
  firstCellOk : Bool
  secondParamsOk : Bool
  secondSemOk : Bool
  secondCellOk : Bool

/-- One task handed to `xTaskCreate`: its name, its priority, and which
parameter block (`1` = `pxFirstSemaphoreParameters`, `2` =
`pxSecondSemaphoreParameters`) it receives — both tasks of a group get
the same pointer, hence the same cell and semaphore. -/
structure SpawnedTask where
  pcName : String
  uxPriority : Nat
  paramsRef : Nat

/-- The parameter block of a group as filled in by
`vStartSemaphoreTasks`.  `semAvailable` is the state of the semaphore
produced by `vSemaphoreCreateBinary`; modelled from the spec: the
FreeRTOS macro (not part of this repository's sources) documents that
the binary semaphore is created in the available state. -/
structure GroupConfig where
  semAvailable : Bool
  cellAllocated : Bool
  cellInitValue : Nat
  xBlockTime : Nat

/-- What a call of `vStartSemaphoreTasks` did: the tasks spawned, the
number of writes made through a NULL pointer, and the two parameter
blocks (absent when the block's own allocation or its semaphore
creation failed). -/
structure StartOutcome where
  tasks : List SpawnedTask
  nullWrites : Nat
  firstConfig : Option GroupConfig
  secondConfig : Option GroupConfig

/-- `void vStartSemaphoreTasks( unsigned portBASE_TYPE uxPriority )`.
`pms` stands for `portTICK_PERIOD_MS`, a configuration constant whose
header is not in the sources.  Faithful to the C control flow: the
parameter-block allocation and the semaphore creation are checked, but
the `pvPortMalloc` of the shared variable is **not** — the initial value
is stored through the returned pointer and the two tasks are spawned
whether or not that allocation succeeded. -/
def vStartSemaphoreTasks (uxPriority pms : Nat) (env : AllocEnv) : StartOutcome :=
  let xBlockTime : Nat := 100
  let firstPart : Option GroupConfig × List SpawnedTask × Nat :=
    if env.firstParamsOk then
      if env.firstSemOk then
        (some { semAvailable := true
                cellAllocated := env.firstCellOk
                cellInitValue := semtstNON_BLOCKING_EXPECTED_VALUE
                xBlockTime := 0 },
         [ { pcName := "PolSEM1", uxPriority := tskIDLE_PRIORITY, paramsRef := 1 },
           { pcName := "PolSEM2", uxPriority := tskIDLE_PRIORITY, paramsRef := 1 } ],
         if env.firstCellOk then 0 else 1)
      else (none, [], 0)
    else (none, [], 0)
  let secondPart : Option GroupConfig × List SpawnedTask × Nat :=
    if env.secondParamsOk then
      if env.secondSemOk then
        (some { semAvailable := true
                cellAllocated := env.secondCellOk
                cellInitValue := semtstBLOCKING_EXPECTED_VALUE
                xBlockTime := xBlockTime / pms },
         [ { pcName := "BlkSEM1", uxPriority := uxPriority, paramsRef := 2 },
           { pcName := "BlkSEM2", uxPriority := uxPriority, paramsRef := 2 } ],
         if env.secondCellOk then 0 else 1)
      else (none, [], 0)
    else (none, [], 0)
  { tasks := firstPart.2.1 ++ secondPart.2.1
    nullWrites := firstPart.2.2 + secondPart.2.2
    firstConfig := firstPart.1
    secondConfig := secondPart.1 }

/-! Concrete inputs used by the counterexamples and witnesses. -/

/-- All six allocations succeed. -/
def envAllOk : AllocEnv :=
  { firstParamsOk := true, firstSemOk := true, firstCellOk := true
    secondParamsOk := true, secondSemOk := true, secondCellOk := true }

/-- The `pvPortMalloc` of the first group's shared variable returns
NULL; everything else succeeds. -/
def envFirstCellFail : AllocEnv :=
  { firstParamsOk := true, firstSemOk := true, firstCellOk := false
    secondParamsOk := true, secondSemOk := true, secondCellOk := true }

/-- A cycle in which the semaphore is taken, the pre-condition read
observes 0 instead of the expected value, every loop re-read is clean,
and the give succeeds. -/
def envPreFault : CycleEnv :=
  { takeOk := true, preVal := 0, readBack := fun k => k, giveOk := true }

/-- A fully clean polling-group cycle: the pre-condition read observes
`semtstNON_BLOCKING_EXPECTED_VALUE`, re-reads are uninterfered, the give
succeeds. -/
def envCleanPoll : CycleEnv :=
  { takeOk := true, preVal := semtstNON_BLOCKING_EXPECTED_VALUE
    readBack := fun k => k, giveOk := true }

/-- A cycle whose only fault is a rejected `xSemaphoreGive`. -/
def envGiveFault : CycleEnv :=
  { takeOk := true, preVal := semtstNON_BLOCKING_EXPECTED_VALUE
    readBack := fun k => k, giveOk := false }

/-- A cycle with both a pre-condition mismatch and a rejected give. -/
def envPreAndGiveFault : CycleEnv :=
  { takeOk := true, preVal := 0, readBack := fun k => k, giveOk := false }

/-- A cycle whose only fault is an interfered re-read: every re-read of
the counting loop observes 0 instead of the just-written value. -/
def envReadFault : CycleEnv :=
  { takeOk := true, preVal := semtstNON_BLOCKING_EXPECTED_VALUE
    readBack := fun _ => 0, giveOk := true }

/-- A freshly started polling-group task: no error yet, the cell at its
expected at-rest value, all counters zero. -/
def freshPollState : TaskState :=
  { sError := false, cell := semtstNON_BLOCKING_EXPECTED_VALUE, checks := fun _ => 0 }

/-- A task state whose sticky `sError` flag is already set. -/
def faultedPollState : TaskState :=
  { sError := true, cell := semtstNON_BLOCKING_EXPECTED_VALUE, checks := fun _ => 0 }

/-- Snapshot after the first supervisor call of the C4 scenario: the
polling group's tasks are indices 0 and 1, the blocking group's are 2
and 3; every counter stood at 5 when the first call stored it. -/
def c4Snapshot : CheckVars := fun _ => 5

/-- Live counters at the second supervisor call: task 0 is stalled (still
5), its group-mate 1 and both tasks 2, 3 of the other group advanced. -/
def c4Live : CheckVars := fun i => if i.val = 0 then 5 else 9

/-! Helper lemmas. -/

/-- The returned flag of the fold: `pdTRUE` survives exactly when every
visited index has a changed counter.  Needs the visited index list to be
duplicate-free, since each index's comparison reads the snapshot before
its own overwrite. -/
theorem checkBody_foldl_fst (live : CheckVars) :
    ∀ (l : List (Fin semtstNUM_TASKS)), l.Nodup → ∀ (b : Bool) (snap : CheckVars),
      ((l.foldl (checkBody live) (b, snap)).1 = true ↔
        (b = true ∧ ∀ i ∈ l, snap i ≠ live i)) := by
  intro l
  induction l with
  | nil => intro _ b snap; simp
  | cons i t ih =>
    intro hnd b snap
    rcases List.nodup_cons.mp hnd with ⟨hit, hts⟩
    rw [List.foldl_cons]
    rw [ih hts]
    constructor
    · rintro ⟨hb, hall⟩
      by_cases h : snap i = live i
      · simp [checkBody, h] at hb
      · refine ⟨by simpa [checkBody, h] using hb, ?_⟩
        intro j hj
        rcases List.mem_cons.mp hj with rfl | hjt
        · exact h
        · have hji : j ≠ i := fun hji => hit (hji ▸ hjt)
          have := hall j hjt
          simp only [checkBody] at this
          rwa [Function.update_noteq hji] at this
    · rintro ⟨hb, hall⟩
      have hi : snap i ≠ live i := hall i (List.mem_cons_self i t)
      refine ⟨by simp [checkBody, hi, hb], ?_⟩
      intro j hjt
      have hji : j ≠ i := fun hji => hit (hji ▸ hjt)
      simp only [checkBody]
      rw [Function.update_noteq hji]
      exact hall j (List.mem_cons_of_mem i hjt)

/-- The snapshot after the fold: every visited index holds the live
value, the rest are untouched. -/
theorem checkBody_foldl_snd (live : CheckVars) :
    ∀ (l : List (Fin semtstNUM_TASKS)) (b : Bool) (snap : CheckVars)
      (j : Fin semtstNUM_TASKS),
      (l.foldl (checkBody live) (b, snap)).2 j =
        if j ∈ l then live j else snap j := by
  intro l
  induction l with
  | nil => intro b snap j; simp
  | cons i t ih =>
    intro b snap j
    rw [List.foldl_cons, ih]
    by_cases hjt : j ∈ t
    · simp [hjt]
    · by_cases hji : j = i
      · subst hji
        simp [hjt, checkBody, Function.update_same]
      · simp [hjt, hji, checkBody, Function.update_noteq hji]

/-- Exact effect of folding the loop body over any counter list: the
error flag absorbs any read-back mismatch, exactly one message is
emitted if the flag was clear and some mismatch occurs, the cell holds
the last written value, and the write trace is extended by the whole
list, faults or not. -/
theorem reverifyStep_foldl_spec (rb : Nat → Nat) :
    ∀ (l : List Nat) (a : LoopAcc),
      l.foldl (reverifyStep rb) a =
        { sError := a.sError || l.any fun k => rb k != k
          emits := a.emits +
            if a.sError = false ∧ (l.any fun k => rb k != k) = true then 1 else 0
          cell := l.getLastD a.cell
          writes := a.writes ++ l } := by
  intro l
  induction l with
  | nil => intro a; simp
  | cons k t ih =>
    intro a
    rw [List.foldl_cons, ih, List.getLastD_cons]
    by_cases hk : rb k = k
    · simp [reverifyStep, hk]
    · rcases he : a.sError with _ | _ <;>
        simp [reverifyStep, hk, he]

/-- The counting loop always ends at the expected value: the last
element of `0 .. E`. -/
theorem range_getLastD (E c : Nat) : (List.range (E + 1)).getLastD c = E := by
  simp [List.getLastD_eq_getLast?, List.getLast?_range]

/-- A read-back oracle that always returns what was written triggers no
mismatch. -/
theorem any_bne_eq_false (rb : Nat → Nat) (l : List Nat) (h : ∀ k, rb k = k) :
    (l.any fun k => rb k != k) = false := by
  simp [h]

/-- Closed form of a pass whose `xSemaphoreTake` succeeded: the sticky
error flag picks up the pre-condition mismatch, any re-read mismatch and
a failed give; the emission count adds the unconditional pre-condition
print, the flag-guarded loop print and the unconditional give print; the
cell ends at the expected value; the counter array is bumped only when
the flag ends the pass clear. -/
theorem runCycle_take_spec (E idx : Nat) (env : CycleEnv) (s : TaskState)
    (h : env.takeOk = true) :
    runCycle E idx env s =
      ({ sError := ((if env.preVal = E then s.sError else true)
            || ((List.range (E + 1)).any fun k => env.readBack k != k))
            || !env.giveOk
         cell := E
         checks := if (((if env.preVal = E then s.sError else true)
              || ((List.range (E + 1)).any fun k => env.readBack k != k))
              || !env.giveOk) = false
            then bumpCheck idx s.checks else s.checks },
       (if env.preVal = E then 0 else 1)
         + (if (if env.preVal = E then s.sError else true) = false
              ∧ ((List.range (E + 1)).any fun k => env.readBack k != k) = true
            then 1 else 0)
         + (if env.giveOk = false then 1 else 0)) := by
  by_cases hp : env.preVal = E <;> cases hg : env.giveOk <;>
    simp [runCycle, h, hp, hg, mutateAndReverify, reverifyStep_foldl_spec,
      List.getLast?_range]

/-- The counter array after a pass: bumped at the task's own index
exactly when the whole pass — and the task's whole history — is
fault-free. -/
theorem runCycle_checks (E idx : Nat) (env : CycleEnv) (s : TaskState) :
    ((runCycle E idx env s).1).checks =
      if env.takeOk = true ∧ s.sError = false ∧ env.preVal = E
          ∧ ((List.range (E + 1)).any fun k => env.readBack k != k) = false
          ∧ env.giveOk = true
        then bumpCheck idx s.checks else s.checks := by
  rcases ht : env.takeOk with _ | _
  · simp [runCycle, ht]
  · rw [runCycle_take_spec E idx env s ht]
    by_cases hp : env.preVal = E <;> cases hs : s.sError <;>
      cases hm : ((List.range (E + 1)).any fun k => env.readBack k != k) <;>
      cases hg : env.giveOk <;>
      simp [ht, hp, hs, hm, hg]

/-- Pointwise reading of the guarded increment. -/
theorem bumpCheck_apply (idx : Nat) (cv : CheckVars) (i : Fin semtstNUM_TASKS) :
    bumpCheck idx cv i = if i.val = idx then cv i + 1 else cv i := by
  by_cases hidx : idx < semtstNUM_TASKS
  · rw [bumpCheck, dif_pos hidx, Function.update_apply]
    by_cases hi : i = ⟨idx, hidx⟩
    · subst hi; simp
    · rw [if_neg hi, if_neg (by simpa [Fin.ext_iff] using hi)]
  · have hne : ¬i.val = idx := by have := i.isLt; omega
    rw [bumpCheck, dif_neg hidx, if_neg hne]

/-- One slot of the counter array after a pass. -/
theorem runCycle_checks_apply (E idx : Nat) (env : CycleEnv) (s : TaskState)
    (i : Fin semtstNUM_TASKS) :
    ((runCycle E idx env s).1).checks i =
      if env.takeOk = true ∧ s.sError = false ∧ env.preVal = E
          ∧ ((List.range (E + 1)).any fun k => env.readBack k != k) = false
          ∧ env.giveOk = true ∧ i.val = idx
        then s.checks i + 1 else s.checks i := by
  rw [runCycle_checks, apply_ite (fun cv : CheckVars => cv i), bumpCheck_apply]
  by_cases hc : env.takeOk = true ∧ s.sError = false ∧ env.preVal = E
      ∧ ((List.range (E + 1)).any fun k => env.readBack k != k) = false
      ∧ env.giveOk = true <;>
    by_cases hi : i.val = idx <;>
    simp [hc, hi, and_assoc]

/-- Every run of the index allocator hands out consecutive values. -/
theorem allocIndices_eq_range' : ∀ (n s : Nat), allocIndices n s = List.range' s n := by
  intro n
  induction n with
  | zero => intro s; rfl
  | succ m ih =>
    intro s
    rw [allocIndices, ih, List.range'_succ]
    rfl

/-- Characterization of the liveness poll: the flag, and the snapshot
overwrite. -/
theorem stillRunning_spec (sLast live : CheckVars) :
    ((xAreSemaphoreTasksStillRunning sLast live).1 = true ↔
      ∀ i : Fin semtstNUM_TASKS, sLast i ≠ live i)
    ∧ (xAreSemaphoreTasksStillRunning sLast live).2 = live := by
  constructor
  · rw [xAreSemaphoreTasksStillRunning,
      checkBody_foldl_fst live _ (List.nodup_finRange _)]
    simp [List.mem_finRange]
  · funext j
    rw [xAreSemaphoreTasksStillRunning, checkBody_foldl_snd]
    simp [List.mem_finRange]

/-! The claims. -/

/-- C3 — confirmed.  `xAreSemaphoreTasksStillRunning` returns success
(`pdTRUE`) iff for every task index in `[0, semtstNUM_TASKS)` the live
`CheckVariable` differs from the snapshot left by the previous call (one
unchanged index forces `pdFALSE`), and on every call the entire snapshot
is overwritten with the live values regardless of the result. -/
theorem stillRunning_iff_all_changed_and_snapshot_overwritten
    (sLast live : CheckVars) :
    ((xAreSemaphoreTasksStillRunning sLast live).1 = true ↔
      ∀ i : Fin semtstNUM_TASKS, sLast i ≠ live i)
    ∧ (xAreSemaphoreTasksStillRunning sLast live).2 = live :=
  stillRunning_spec sLast live

/-- C4 — counterexample.  With task 0 stalled while both tasks of the
blocking group (indices 2 and 3) advanced, the second call returns the
single value `pdFALSE`; the function has no per-group result, so it does
not — cannot — return `pdTRUE` "for the unaffected group" as the claim
states. -/
theorem stalledTask_secondCall_returns_globalFalse :
    (xAreSemaphoreTasksStillRunning c4Snapshot c4Live).1 = false
    ∧ c4Snapshot ⟨2, by decide⟩ ≠ c4Live ⟨2, by decide⟩
    ∧ c4Snapshot ⟨3, by decide⟩ ≠ c4Live ⟨3, by decide⟩ := by
  refine ⟨?_, by decide, by decide⟩
  rcases hb : (xAreSemaphoreTasksStillRunning c4Snapshot c4Live).1 with _ | _
  · rfl
  · exact absurd (((stillRunning_spec c4Snapshot c4Live).1.mp hb) ⟨0, by decide⟩)
      (by decide)

/-- C4 — amended.  If any task's `CheckVariable` is unchanged between
two consecutive calls, the second call returns `pdFALSE` outright: the
check is a single global AND over all four indices, with no per-group
result, so the other group's progress cannot be reported as success. -/
theorem stalledTask_forces_globalFalse (sLast live : CheckVars)
    (h : ∃ i : Fin semtstNUM_TASKS, sLast i = live i) :
    (xAreSemaphoreTasksStillRunning sLast live).1 = false := by
  rcases h with ⟨i, hi⟩
  rcases hb : (xAreSemaphoreTasksStillRunning sLast live).1 with _ | _
  · rfl
  · exact absurd (((stillRunning_spec sLast live).1.mp hb) i) (by simp [hi])

/-- Witness for `stalledTask_forces_globalFalse` at a concrete state. -/
theorem stalledTask_forces_globalFalse_witness :
    (xAreSemaphoreTasksStillRunning (fun _ => 7)
      (fun i => if i.val = 3 then 7 else 8)).1 = false :=
  stalledTask_forces_globalFalse _ _ ⟨⟨3, by decide⟩, by decide⟩

set_option maxRecDepth 20000 in
/-- C1 — counterexample.  `sError` is declared once, before the infinite
loop, and never reset: after one cycle whose pre-condition check fails, a
later cycle that is entirely fault-free (take succeeds, pre-condition
read sees the expected value, every re-read is clean, give succeeds)
does **not** increment the task's `CheckVariable` — the flag is sticky
across cycles, not local to the cycle. -/
theorem cleanCycleAfterFault_noIncrement :
    ((runCycle semtstNON_BLOCKING_EXPECTED_VALUE 0 envCleanPoll
        ((runCycle semtstNON_BLOCKING_EXPECTED_VALUE 0 envPreFault freshPollState).1)).1).checks
        ⟨0, by decide⟩
      ≠ (((runCycle semtstNON_BLOCKING_EXPECTED_VALUE 0 envPreFault
          freshPollState).1).checks ⟨0, by decide⟩) + 1 := by decide

/-- C1 — amended.  A fault suppresses the `CheckVariable` increment for
the faulting cycle **and every later cycle**: once `sError` is set no
pass changes the counters, and a pass increments the task's own counter
(by one, at its index) only when the task's history is still fault-free
and the pass itself completes take, pre-condition check, reverify loop
and give without fault. -/
theorem increment_requires_faultFree_history (E idx : Nat) (env : CycleEnv)
    (s : TaskState) :
    (s.sError = true → ((runCycle E idx env s).1).checks = s.checks)
    ∧ (s.sError = false → env.takeOk = true → env.preVal = E →
        (∀ k, env.readBack k = k) → env.giveOk = true → idx < semtstNUM_TASKS →
        ∀ i : Fin semtstNUM_TASKS,
          ((runCycle E idx env s).1).checks i =
            if i.val = idx then s.checks i + 1 else s.checks i) := by
  constructor
  · intro hs
    rw [runCycle_checks]
    simp [hs]
  · intro hs ht hp hr hg _ i
    rw [runCycle_checks_apply]
    simp [hs, ht, hp, hg, any_bne_eq_false env.readBack _ hr]

/-- Witness for `increment_requires_faultFree_history`: a fresh task's
first clean cycle takes counter 0 from 0 to 1. -/
theorem increment_requires_faultFree_history_witness :
    ((runCycle semtstNON_BLOCKING_EXPECTED_VALUE 0 envCleanPoll
        freshPollState).1).checks ⟨0, by decide⟩ = 1 := by
  have h := (increment_requires_faultFree_history semtstNON_BLOCKING_EXPECTED_VALUE 0
      envCleanPoll freshPollState).2 rfl rfl rfl (fun _ => rfl) rfl (by decide)
      ⟨0, by decide⟩
  simpa [freshPollState] using h

/-- C5 — counterexample.  One cycle with two faults — the pre-condition
read sees 0 and the give is rejected — emits **two** messages, not
"exactly one per faulted cycle": both of those prints are unconditional,
only the reverify-loop print is guarded by `sError`. -/
theorem faultedCycle_twoEmissions :
    freshPollState.sError = false
    ∧ ((runCycle semtstNON_BLOCKING_EXPECTED_VALUE 0 envPreAndGiveFault
        freshPollState).1).sError = true
    ∧ (runCycle semtstNON_BLOCKING_EXPECTED_VALUE 0 envPreAndGiveFault
        freshPollState).2 = 2 := by decide

/-- C5 — amended.  Per acquired cycle the emission count is exactly: one
for a pre-condition mismatch (always printed), plus one if the sticky
flag was still clear, the pre-condition matched and some re-read of the
loop mismatched (the loop print is guarded by `sError`), plus one for a
rejected give (always printed).  A cycle without acquisition emits
nothing.  Hence a faulted cycle can emit 0, 1 or 2 messages: a re-read
fault after any earlier fault goes unlogged, and a pre-condition or
reverify fault combined with a give fault logs twice. -/
theorem cycle_emission_count (E idx : Nat) (env : CycleEnv) (s : TaskState) :
    (env.takeOk = true →
      (runCycle E idx env s).2 =
        (if env.preVal = E then 0 else 1)
        + (if s.sError = false ∧ env.preVal = E
              ∧ ((List.range (E + 1)).any fun k => env.readBack k != k) = true
            then 1 else 0)
        + (if env.giveOk = false then 1 else 0))
    ∧ (env.takeOk = false → (runCycle E idx env s).2 = 0) := by
  constructor
  · intro ht
    rw [runCycle_take_spec E idx env s ht]
    by_cases hp : env.preVal = E <;> cases hs : s.sError <;>
      simp [hp, hs, and_assoc]
  · intro ht
    simp [runCycle, ht]

/-- Witness for `cycle_emission_count`: a cycle whose every re-read
mismatches, run by a task whose flag is already set, emits nothing. -/
theorem cycle_emission_count_witness :
    (runCycle semtstNON_BLOCKING_EXPECTED_VALUE 0 envReadFault
      faultedPollState).2 = 0 := by
  have h := (cycle_emission_count semtstNON_BLOCKING_EXPECTED_VALUE 0 envReadFault
      faultedPollState).1 rfl
  simpa [envReadFault, faultedPollState] using h

/-- C6 — confirmed.  An uninterfered mutate-and-reverify phase (every
re-read returns the just-written value) writes exactly the sequence
`0, 1, …, E`, flags no fault, prints nothing, and leaves the cell at the
expected value `E`; moreover any acquired pass whatsoever ends with the
cell equal to the expected value, so a fault-free cycle re-establishes
the at-rest invariant at its release. -/
theorem mutateReverify_writes_sequence (E : Nat) (e : Bool) (n c : Nat) :
    mutateAndReverify (fun k => k) E { sError := e, emits := n, cell := c, writes := [] } =
      { sError := e, emits := n, cell := E, writes := List.range (E + 1) }
    ∧ ∀ (idx : Nat) (env : CycleEnv) (s : TaskState),
        env.takeOk = true → ((runCycle E idx env s).1).cell = E := by
  constructor
  · rw [mutateAndReverify, reverifyStep_foldl_spec,
      any_bne_eq_false (fun k => k) _ (fun _ => rfl)]
    simp [List.getLast?_range]
  · intro idx env s ht
    rw [runCycle_take_spec E idx env s ht]

/-- Witness for `mutateReverify_writes_sequence` at expected value 2. -/
theorem mutateReverify_writes_sequence_witness :
    mutateAndReverify (fun k => k) 2 { sError := false, emits := 0, cell := 7, writes := [] } =
      { sError := false, emits := 0, cell := 2, writes := List.range (2 + 1) }
    ∧ ((runCycle 2 0 envCleanPoll freshPollState).1).cell = 2 :=
  ⟨(mutateReverify_writes_sequence 2 false 0 7).1,
   (mutateReverify_writes_sequence 2 false 0 7).2 0 envCleanPoll freshPollState rfl⟩

/-- C7 — counterexample.  A cycle whose give is rejected is followed by
an entirely fault-free cycle; that fault-free cycle does not increment
the counter (the sticky `sError` suppresses it), refuting "strictly
increases by one exactly once per fault-free cycle". -/
theorem giveFaultThenCleanCycle_noIncrement :
    ((runCycle semtstNON_BLOCKING_EXPECTED_VALUE 0 envCleanPoll
        ((runCycle semtstNON_BLOCKING_EXPECTED_VALUE 0 envGiveFault freshPollState).1)).1).checks
        ⟨0, by decide⟩
      ≠ (((runCycle semtstNON_BLOCKING_EXPECTED_VALUE 0 envGiveFault
          freshPollState).1).checks ⟨0, by decide⟩) + 1 := by decide

/-- C7 — amended.  Every counter is non-decreasing across any pass and
never grows by more than one; it grows by exactly one iff the pass
acquired the semaphore, the task had no fault in its entire history
(`sError` still clear), the pre-condition read matched, every re-read
matched, the give succeeded, and the slot is the task's own index.  The
counters are never decremented or reset. -/
theorem checkVariable_monotone_increment (E idx : Nat) (env : CycleEnv)
    (s : TaskState) (i : Fin semtstNUM_TASKS) :
    s.checks i ≤ ((runCycle E idx env s).1).checks i
    ∧ ((runCycle E idx env s).1).checks i ≤ s.checks i + 1
    ∧ (((runCycle E idx env s).1).checks i = s.checks i + 1 ↔
        (env.takeOk = true ∧ s.sError = false ∧ env.preVal = E
          ∧ ((List.range (E + 1)).any fun k => env.readBack k != k) = false
          ∧ env.giveOk = true ∧ i.val = idx)) := by
  rw [runCycle_checks_apply]
  refine ⟨?_, ?_, ?_⟩
  · split_ifs <;> omega
  · split_ifs <;> omega
  · constructor
    · intro h
      by_contra hc
      rw [if_neg hc] at h
      omega
    · intro hcond
      rw [if_pos hcond]

/-- C8 — confirmed.  `N` consecutive runs of the critical-section
read-and-increment allocator starting from the initial state hand out
exactly the indices `0, …, N-1`: pairwise distinct, `N` of them. -/
theorem allocator_yields_distinct_range (N : Nat) :
    allocIndices N 0 = List.range N
    ∧ (allocIndices N 0).Nodup
    ∧ (allocIndices N 0).length = N := by
  have h : allocIndices N 0 = List.range N := by
    rw [allocIndices_eq_range', List.range_eq_range']
  exact ⟨h, h ▸ List.nodup_range N, h ▸ List.length_range N⟩

/-- C2 — counterexample.  When the `pvPortMalloc` of the first group's
shared variable fails (everything else succeeding), the call still
spawns all four tasks — including the two of the affected group — and
performs one write through the NULL pointer: the cell allocation is the
one allocation `vStartSemaphoreTasks` does not check. -/
theorem cellAllocFailure_spawnsTasks_and_writesNull :
    (vStartSemaphoreTasks 3 1 envFirstCellFail).nullWrites = 1
    ∧ (vStartSemaphoreTasks 3 1 envFirstCellFail).tasks.length = 4
    ∧ (vStartSemaphoreTasks 3 1 envFirstCellFail).tasks.map SpawnedTask.pcName
        = ["PolSEM1", "PolSEM2", "BlkSEM1", "BlkSEM2"] := by decide

/-- C2 — amended.  A failed parameter-block allocation or semaphore
creation does silently skip the group's two tasks (and no write through
an invalid pointer happens for that group); but a failed SharedCell
allocation is unchecked: the group's two tasks are spawned regardless
and the initial value is written through the NULL pointer, once per
group whose cell allocation failed. -/
theorem allocFailure_behavior (u p : Nat) (env : AllocEnv) :
    (vStartSemaphoreTasks u p env).nullWrites =
      (if env.firstParamsOk && env.firstSemOk && !env.firstCellOk then 1 else 0)
      + (if env.secondParamsOk && env.secondSemOk && !env.secondCellOk then 1 else 0)
    ∧ (vStartSemaphoreTasks u p env).tasks.length =
      (if env.firstParamsOk && env.firstSemOk then 2 else 0)
      + (if env.secondParamsOk && env.secondSemOk then 2 else 0) := by
  rcases env with ⟨b1, b2, b3, b4, b5, b6⟩
  cases b1 <;> cases b2 <;> cases b3 <;> cases b4 <;> cases b5 <;> cases b6 <;>
    simp [vStartSemaphoreTasks]

/-- C9 — confirmed (with `portTICK_PERIOD_MS` as the parameter `p`, a
positive divisor of at most 100 ms so that `100 / p` ticks is positive).
The polling group gets block time 0, cell initialized to the expected
value `0xFF`, idle priority, two tasks sharing parameter block 1; the
blocking group gets block time `100 / p` ticks (100 ms converted), cell
initialized to `0xFFF`, the caller-supplied priority, two tasks sharing
parameter block 2; each group's binary semaphore is created available;
and `prvSemaphoreTest` derives exactly those expected values from the
two block times. -/
theorem startTasks_configuration (u p : Nat) (hp : 0 < p) (hple : p ≤ 100) :
    (vStartSemaphoreTasks u p envAllOk).tasks =
      [ { pcName := "PolSEM1", uxPriority := tskIDLE_PRIORITY, paramsRef := 1 },
        { pcName := "PolSEM2", uxPriority := tskIDLE_PRIORITY, paramsRef := 1 },
        { pcName := "BlkSEM1", uxPriority := u, paramsRef := 2 },
        { pcName := "BlkSEM2", uxPriority := u, paramsRef := 2 } ]
    ∧ (vStartSemaphoreTasks u p envAllOk).firstConfig =
        some { semAvailable := true, cellAllocated := true
               cellInitValue := semtstNON_BLOCKING_EXPECTED_VALUE, xBlockTime := 0 }
    ∧ (vStartSemaphoreTasks u p envAllOk).secondConfig =
        some { semAvailable := true, cellAllocated := true
               cellInitValue := semtstBLOCKING_EXPECTED_VALUE, xBlockTime := 100 / p }
    ∧ 0 < 100 / p
    ∧ ulExpectedValueFor 0 = semtstNON_BLOCKING_EXPECTED_VALUE
    ∧ ulExpectedValueFor (100 / p) = semtstBLOCKING_EXPECTED_VALUE := by
  have hpos : 0 < 100 / p := Nat.div_pos hple hp
  refine ⟨?_, ?_, ?_, hpos, ?_, ?_⟩ <;>
    simp [vStartSemaphoreTasks, envAllOk, ulExpectedValueFor, hpos]

/-- Witness for `startTasks_configuration` at priority 3 and a 1 ms tick
period. -/
theorem startTasks_configuration_witness :
    (vStartSemaphoreTasks 3 1 envAllOk).tasks =
      [ { pcName := "PolSEM1", uxPriority := tskIDLE_PRIORITY, paramsRef := 1 },
        { pcName := "PolSEM2", uxPriority := tskIDLE_PRIORITY, paramsRef := 1 },
        { pcName := "BlkSEM1", uxPriority := 3, paramsRef := 2 },
        { pcName := "BlkSEM2", uxPriority := 3, paramsRef := 2 } ]
    ∧ (vStartSemaphoreTasks 3 1 envAllOk).firstConfig =
        some { semAvailable := true, cellAllocated := true
               cellInitValue := semtstNON_BLOCKING_EXPECTED_VALUE, xBlockTime := 0 }
    ∧ (vStartSemaphoreTasks 3 1 envAllOk).secondConfig =
        some { semAvailable := true, cellAllocated := true
               cellInitValue := semtstBLOCKING_EXPECTED_VALUE, xBlockTime := 100 / 1 }
    ∧ 0 < 100 / 1
    ∧ ulExpectedValueFor 0 = semtstNON_BLOCKING_EXPECTED_VALUE
    ∧ ulExpectedValueFor (100 / 1) = semtstBLOCKING_EXPECTED_VALUE :=
  startTasks_configuration 3 1 (by decide) (by decide)

/-- C10 — confirmed.  A task whose allocated index is `semtstNUM_TASKS`
(4) or more — as happens to every task of a second call of the spawn
entry point — leaves the counter array completely untouched on every
pass, fault-free or not; the guarded increment itself is a no-op there,
and the array is only ever indexed under the proof that the index is in
range, so no out-of-bounds access exists. -/
theorem outOfRangeIndex_leaves_counters (E idx : Nat) (env : CycleEnv)
    (s : TaskState) (h : semtstNUM_TASKS ≤ idx) :
    ((runCycle E idx env s).1).checks = s.checks
    ∧ bumpCheck idx s.checks = s.checks := by
  have hb : bumpCheck idx s.checks = s.checks := by
    rw [bumpCheck, dif_neg (by omega)]
  refine ⟨?_, hb⟩
  rw [runCycle_checks]
  split_ifs <;> simp [hb]

/-- Witness for `outOfRangeIndex_leaves_counters` at index 4 (the first
task of a second spawn call). -/
theorem outOfRangeIndex_leaves_counters_witness :
    ((runCycle semtstNON_BLOCKING_EXPECTED_VALUE 4 envCleanPoll
        freshPollState).1).checks = freshPollState.checks
    ∧ bumpCheck 4 freshPollState.checks = freshPollState.checks :=
  outOfRangeIndex_leaves_counters semtstNON_BLOCKING_EXPECTED_VALUE 4 envCleanPoll
    freshPollState (by decide)

end SemTest
